import Mathlib

/-!
# OSDPretty: the on-screen-display overlay of `src/osdpretty.cpp`

A shallow embedding of the placement arithmetic (`Reposition`, `current_pos`,
`mouseMoveEvent`) and of the show / hide / fade / auto-hide state machine
(`ShowMessage`, `setVisible`, `showEvent`, `FaderFinished`, `Load`).

Conventions of the embedding
* C++ `int` is `Int`. Screen geometry, window positions and window sizes come
  from the platform and stay far inside the 32-bit range; the stored position
  comes from the settings file and may be any `int`, so the one operation it can
  push out of range, the sum `geometry.left() + popup_pos_.x()` of `Reposition`
  (and its y twin), is also given reduced to 32 bits, in `RepositionPosInt32`.
  `/` on `int` truncates toward zero, which is `Int.tdiv`.
* `QRect` is kept the way Qt keeps it, by its two inclusive corners, so that
  `right() = left() + width() - 1` and `bottom() = top() + height() - 1`.
* `#ifdef Q_OS_WIN` is the boolean `isWin` of the environment.
* Painting, palette, font rendering and the shape mask do not feed back into
  any field modelled here and are left out.
* The class declaration `osdpretty.h` is not among the sources: the state record
  lists the members the `.cpp` reads and writes, and the three inline accessors
  it calls are modelled from the specification.
* Qt's own classes are modelled by their documented behaviour: `QTimer` (single
  shot; `start` re-arms from the full interval), `QTimeLine` (direction and
  running state), `QWidget::setVisible` (a hidden widget that is shown receives
  its show event inside the call), `QGuiApplication::screenAt`.
* An operation receives its surroundings (stored settings, screens, size hint) as
  an `Env`, so that the settings may change between two operations.
-/

/-! ## Qt value types -/

/-- QPoint: a pair of `int` coordinates. -/
structure QPoint where
  x : Int
  y : Int
deriving DecidableEq

/-- QSize: a pair of `int` extents. -/
structure QSize where
  width : Int
  height : Int
deriving DecidableEq

/-- QRect as Qt stores it: top-left corner `(x1, y1)` and the inclusive
bottom-right corner `(x2, y2)`. -/
structure QRect where
  x1 : Int
  y1 : Int
  x2 : Int
  y2 : Int
deriving DecidableEq

/-- The constructor `QRect(int x, int y, int width, int height)`. -/
def QRect.ofXYWH (x y w h : Int) : QRect := ⟨x, y, x + w - 1, y + h - 1⟩

def QRect.left (r : QRect) : Int := r.x1
def QRect.top (r : QRect) : Int := r.y1
def QRect.right (r : QRect) : Int := r.x2
def QRect.bottom (r : QRect) : Int := r.y2
def QRect.x (r : QRect) : Int := r.x1
def QRect.y (r : QRect) : Int := r.y1
def QRect.width (r : QRect) : Int := r.x2 - r.x1 + 1
def QRect.height (r : QRect) : Int := r.y2 - r.y1 + 1

/-- The point `QRect::center()`: `((x1 + x2) / 2, (y1 + y2) / 2)` with C++ integer division. -/
def QRect.center (r : QRect) : QPoint :=
  ⟨Int.tdiv (r.x1 + r.x2) 2, Int.tdiv (r.y1 + r.y2) 2⟩

/-- The test `QRect::contains(const QPoint &)` on a normalised rectangle. -/
def QRect.contains (r : QRect) (p : QPoint) : Bool :=
  decide (r.x1 ≤ p.x) && decide (p.x ≤ r.x2) && decide (r.y1 ≤ p.y) && decide (p.y ≤ r.y2)

/-- The template `qBound(min, val, max)`, which Qt defines as `qMax(min, qMin(max, val))`. -/
def qBound (mn val mx : Int) : Int := max mn (min mx val)

/-- The largest `int`. -/
def INT_MAX : Int := 2147483647

/-- The smallest `int`. -/
def INT_MIN : Int := -2147483648

/-- The `int` a result is stored as: a value outside the 32-bit range wraps around in two's
complement, a value inside it is kept. -/
def wrapInt32 (v : Int) : Int := (v - INT_MIN) % 4294967296 + INT_MIN

namespace OSDPretty

/-- The constant `OSDPretty::kSnapProximity`. -/
def kSnapProximity : Int := 20

/-! ## Placement arithmetic -/

/-- The coordinates `Reposition` hands to `move(x, y)` (osdpretty.cpp, lines 476-485), as a
function of the build flavour, the popup screen's `availableGeometry()`, the stored
`popup_pos_` and the window's `width()` and `height()`. The arithmetic is that of the
integers: it is what the code computes as long as no `int` operation overflows (see
`RepositionPosInt32`, which `Reposition` uses, for a stored position that makes one
overflow). -/
def RepositionPos (isWin : Bool) (geometry : QRect) (popup_pos : QPoint) (width height : Int) :
    QPoint :=
  let x := if popup_pos.x < 0 then geometry.right - width else geometry.left + popup_pos.x
  let y := if popup_pos.y < 0 then geometry.bottom - height else geometry.top + popup_pos.y
  if isWin then ⟨x, y⟩
  else ⟨qBound 0 x (geometry.right - width), qBound 0 y (geometry.bottom - height)⟩

/-- The coordinates `Reposition` hands to `move(x, y)` (lines 476-485) with the `int` sums
`geometry.left() + popup_pos_.x()` and `geometry.top() + popup_pos_.y()` reduced to 32 bits:
these are the operations a stored position near `INT_MAX` overflows. It agrees with
`RepositionPos` whenever the sums are in range. -/
def RepositionPosInt32 (isWin : Bool) (geometry : QRect) (popup_pos : QPoint)
    (width height : Int) : QPoint :=
  let x := if popup_pos.x < 0 then geometry.right - width
           else wrapInt32 (geometry.left + popup_pos.x)
  let y := if popup_pos.y < 0 then geometry.bottom - height
           else wrapInt32 (geometry.top + popup_pos.y)
  if isWin then ⟨x, y⟩
  else ⟨qBound 0 x (geometry.right - width), qBound 0 y (geometry.bottom - height)⟩

/-- The point `current_pos()` returns (osdpretty.cpp, lines 604-617): `geometry` is the
`availableGeometry()` of `current_screen()`, absent when there is no screen at all; `pos`,
`width` and `height` are the window's. -/
def current_pos (geometry : Option QRect) (pos : QPoint) (width height : Int) : QPoint :=
  match geometry with
  | some geometry =>
    let x := if pos.x ≥ geometry.right - width then -1 else pos.x - geometry.left
    let y := if pos.y ≥ geometry.bottom - height then -1 else pos.y - geometry.top
    ⟨x, y⟩
  | none => ⟨0, 0⟩

/-- The value `snap_x` of `mouseMoveEvent` (line 563). -/
def snap_x (geometry : QRect) (width : Int) : Int :=
  geometry.center.x - Int.tdiv width 2

/-- The x coordinate after the clamp of line 559, before the snap. -/
def clampedX (geometry : QRect) (new_x width : Int) : Int :=
  qBound geometry.left new_x (geometry.right - width)

/-- The snap of lines 563-566 applied to an x coordinate. -/
def snapX (geometry : QRect) (x width : Int) : Int :=
  if x > snap_x geometry width - kSnapProximity ∧ x < snap_x geometry width + kSnapProximity
  then snap_x geometry width else x

/-- The point `mouseMoveEvent` hands to `move(new_pos)` (lines 543-568) in Draggable mode
when a screen is found under the pointer: `geometry` is that screen's `availableGeometry()`,
`globalPos` the pointer position of the event. -/
def mouseMovePos (geometry : QRect) (original_window_pos drag_start_pos globalPos : QPoint)
    (width height : Int) : QPoint :=
  let delta : QPoint := ⟨globalPos.x - drag_start_pos.x, globalPos.y - drag_start_pos.y⟩
  let new_pos : QPoint := ⟨original_window_pos.x + delta.x, original_window_pos.y + delta.y⟩
  let new_pos : QPoint := ⟨clampedX geometry new_pos.x width, new_pos.y⟩
  let new_pos : QPoint := ⟨new_pos.x, qBound geometry.top new_pos.y (geometry.bottom - height)⟩
  ⟨snapX geometry new_pos.x width, new_pos.y⟩

end OSDPretty

/-! ## The widget state -/

/-- The enum `OSDPretty::Mode`. -/
inductive Mode where
  | Mode_Popup
  | Mode_Draggable
deriving DecidableEq

/-- The enum `QTimeLine::Direction`. -/
inductive Direction where
  | Forward
  | Backward
deriving DecidableEq

/-- A screen of the application: its name, its full geometry (what `screenAt` tests) and
its `availableGeometry()` (the usable rectangle). -/
structure QScreen where
  name : String
  geometry : QRect
  availableGeometry : QRect
deriving DecidableEq

/-- The single-shot `QTimer` behind `timeout_`: the configured interval and, while the timer
is active, the time it was armed with (`none` when it is not active). -/
structure QTimer where
  interval : Int
  remaining : Option Int
deriving DecidableEq

/-- The call `QTimer::start()`: (re)arms the timer from its full interval. -/
def QTimer.start (t : QTimer) : QTimer := { t with remaining := some t.interval }

/-- The call `QTimer::stop()`. -/
def QTimer.stop (t : QTimer) : QTimer := { t with remaining := none }

/-- The call `QTimer::setInterval(msec)`: an active timer is re-armed with the new interval. -/
def QTimer.setInterval (t : QTimer) (msec : Int) : QTimer :=
  { interval := msec, remaining := t.remaining.map (fun _ => msec) }

/-- The test `QTimer::isActive()`. -/
def QTimer.isActive (t : QTimer) : Bool := t.remaining.isSome

/-- The `QTimeLine` behind `fader_`: its direction and whether it is in state `Running`. -/
structure QTimeLine where
  direction : Direction
  running : Bool
deriving DecidableEq

/-- The call `QTimeLine::setDirection`. -/
def QTimeLine.setDirection (f : QTimeLine) (d : Direction) : QTimeLine := { f with direction := d }

/-- The call `QTimeLine::start()`: the timeline is running afterwards (a call on a running
timeline changes nothing). -/
def QTimeLine.start (f : QTimeLine) : QTimeLine := { f with running := true }

/-- The keys of the `QSettings` group `OSDPretty` that `Load` reads and that bear on the state
modelled here; `none` is an absent key. -/
structure Settings where
  disable_duration : Option Bool
  fading : Option Bool
  popup_screen : Option String
  popup_pos : Option QPoint
deriving DecidableEq

/-- What an operation reads from outside the widget: the build flavour, the stored settings,
the application's screens (`qApp->screens()`, the primary screen first) and the size the
window has after `layout()->activate(); resize(sizeHint())`. -/
structure Env where
  isWin : Bool
  settings : Settings
  appScreens : List QScreen
  sizeHint : QSize

/-- The members of `OSDPretty` (and of its `QWidget` base) that the operations below read or
write. -/
structure OSDPretty where
  mode_ : Mode
  popup_screen_ : Option QScreen
  popup_screen_name_ : String
  popup_pos_ : QPoint
  disable_duration_ : Bool
  timeout_ : QTimer
  fading_enabled_ : Bool
  fader_ : QTimeLine
  toggle_mode_ : Bool
  screens_ : List QScreen
  original_window_pos_ : QPoint
  drag_start_pos_ : QPoint
  isVisible : Bool
  pos : QPoint
  size : QSize
  maximumSize : QSize
  windowOpacity : ℚ
deriving DecidableEq

namespace OSDPretty

/-- The state the constructor leaves (lines 140-213); `initialSize` is the size `setupUi`
gives the widget. -/
def new (mode : Mode) (initialSize : QSize) : OSDPretty :=
  { mode_ := mode
    popup_screen_ := none
    popup_screen_name_ := ""
    popup_pos_ := ⟨0, 0⟩
    disable_duration_ := false
    timeout_ := ⟨5000, none⟩
    fading_enabled_ := false
    fader_ := ⟨Direction.Forward, false⟩
    toggle_mode_ := false
    screens_ := []
    original_window_pos_ := ⟨0, 0⟩
    drag_start_pos_ := ⟨0, 0⟩
    isVisible := false
    pos := ⟨0, 0⟩
    size := initialSize
    maximumSize := ⟨16777215, 16777215⟩
    windowOpacity := 1 }

def width (s : OSDPretty) : Int := s.size.width
def height (s : OSDPretty) : Int := s.size.height

/-- Modelled from the spec: the accessor `disable_duration()` of the class declaration
(osdpretty.h), which reads the duration-disabled flag. -/
def disable_duration (s : OSDPretty) : Bool := s.disable_duration_

/-- Modelled from the spec: the accessor `toggle_mode()` of the class declaration
(osdpretty.h), which reads the one-shot toggle-mode flag. -/
def toggle_mode (s : OSDPretty) : Bool := s.toggle_mode_

/-- Modelled from the spec: the setter `set_toggle_mode(bool)` of the class declaration
(osdpretty.h), which writes the one-shot toggle-mode flag. -/
def set_toggle_mode (s : OSDPretty) (toggle_mode : Bool) : OSDPretty :=
  { s with toggle_mode_ := toggle_mode }

/-- The lookup `QGuiApplication::screenAt(pos)`: a screen whose geometry contains the point. -/
def screenAt (env : Env) (pos : QPoint) : Option QScreen :=
  env.appScreens.find? (fun sc => sc.geometry.contains pos)

/-- The lookup `QGuiApplication::primaryScreen()`. -/
def primaryScreen (env : Env) : Option QScreen := env.appScreens.head?

/-- The method `current_screen(const QPoint &)` (lines 587-600, the Qt >= 5.10 branch). -/
def current_screen_at (env : Env) (pos : QPoint) : Option QScreen :=
  match screenAt env pos with
  | some screen => some screen
  | none => primaryScreen env

/-- The method `current_screen()` (line 602). -/
def current_screen (env : Env) (s : OSDPretty) : Option QScreen := current_screen_at env s.pos

/-- The call `screens_.insert(name, screen)` on the `QMap` keyed by screen name. -/
def screensInsert (m : List QScreen) (screen : QScreen) : List QScreen :=
  screen :: m.filter (fun sc => sc.name ≠ screen.name)

/-- The lookup `screens_[name]` / the test `screens_.contains(name)`. -/
def screensFind (m : List QScreen) (name : String) : Option QScreen :=
  m.find? (fun sc => sc.name = name)

/-- The method `Reposition` (lines 467-509): resize to the size hint, then, when there is a
popup screen, move to the resolved position, computed in `int`. -/
def Reposition (env : Env) (s : OSDPretty) : OSDPretty :=
  let s := { s with size := env.sizeHint }
  match s.popup_screen_ with
  | some screen =>
    { s with
      pos := RepositionPosInt32 env.isWin screen.availableGeometry s.popup_pos_ s.width s.height }
  | none => s

/-- The method `set_font` (lines 645-658), as far as the state goes. -/
def set_font (env : Env) (s : OSDPretty) : OSDPretty :=
  Reposition env { s with size := env.sizeHint }

/-- The method `Load` (lines 286-337). -/
def Load (env : Env) (s : OSDPretty) : OSDPretty :=
  let s := { s with disable_duration_ := env.settings.disable_duration.getD false }
  let s := { s with fading_enabled_ := env.settings.fading.getD env.isWin }
  let s :=
    match env.settings.popup_screen with
    | some name =>
      let s := { s with popup_screen_name_ := name }
      match screensFind s.screens_ s.popup_screen_name_ with
      | some screen => { s with popup_screen_ := some screen }
      | none =>
        let s := { s with popup_screen_ := current_screen env s }
        match current_screen env s with
        | some screen => { s with popup_screen_name_ := screen.name }
        | none => { s with popup_screen_name_ := "" }
    | none =>
      let s := { s with popup_screen_ := current_screen env s }
      match current_screen env s with
      | some screen => { s with popup_screen_name_ := screen.name }
      | none => s
  let s :=
    match env.settings.popup_pos with
    | some p => { s with popup_pos_ := p }
    | none =>
      match s.popup_screen_ with
      | some screen => { s with popup_pos_ := ⟨screen.availableGeometry.width - s.width, 0⟩ }
      | none => { s with popup_pos_ := ⟨0, 0⟩ }
  set_font env s

/-- The method `ReloadSettings` (lines 339-342); `update()` only schedules a repaint. -/
def ReloadSettings (env : Env) (s : OSDPretty) : OSDPretty := Load env s

/-- The method `showEvent` (lines 219-255). -/
def showEvent (env : Env) (s : OSDPretty) : OSDPretty :=
  let s := { s with screens_ := env.appScreens.foldl screensInsert [] }
  let s :=
    match current_screen env s with
    | some screen =>
      let resolution := screen.availableGeometry
      { s with maximumSize := ⟨resolution.width - 100, resolution.height - 100⟩ }
    | none => s
  let s := { s with windowOpacity := if s.fading_enabled_ then 0 else 1 }
  let s := Load env s
  let s := Reposition env s
  if s.fading_enabled_ then
    { s with fader_ := (s.fader_.setDirection Direction.Forward).start }
  else if s.mode_ = Mode.Mode_Popup then
    if !s.disable_duration then { s with timeout_ := s.timeout_.start } else s
  else s

/-- The first part of `showEvent` (lines 221-237): the screen map, the maximum size and the
starting opacity. Used to reason about `showEvent` in two steps. -/
def showEvent_prepare (env : Env) (s : OSDPretty) : OSDPretty :=
  let s := { s with screens_ := env.appScreens.foldl screensInsert [] }
  let s :=
    match current_screen env s with
    | some screen =>
      let resolution := screen.availableGeometry
      { s with maximumSize := ⟨resolution.width - 100, resolution.height - 100⟩ }
    | none => s
  { s with windowOpacity := if s.fading_enabled_ then 0 else 1 }

/-- The last part of `showEvent` (lines 244-253): start the fade or arm the timer. -/
def showEvent_start (s : OSDPretty) : OSDPretty :=
  if s.fading_enabled_ then
    { s with fader_ := (s.fader_.setDirection Direction.Forward).start }
  else if s.mode_ = Mode.Mode_Popup then
    if !s.disable_duration then { s with timeout_ := s.timeout_.start } else s
  else s

/-- The base-class `QWidget::setVisible`: showing a hidden widget marks it visible and
delivers the show event; showing a visible one changes nothing; hiding marks it hidden. -/
def QWidget_setVisible (env : Env) (s : OSDPretty) (visible : Bool) : OSDPretty :=
  if visible then
    if s.isVisible then s else showEvent env { s with isVisible := true }
  else { s with isVisible := false }

/-- The override `OSDPretty::setVisible` (lines 442-452). -/
def setVisible (env : Env) (s : OSDPretty) (visible : Bool) : OSDPretty :=
  if !visible && s.fading_enabled_ && s.fader_.direction = Direction.Forward then
    { s with fader_ := (s.fader_.setDirection Direction.Backward).start }
  else
    QWidget_setVisible env s visible

/-- The slot `QWidget::hide()`, which is `setVisible(false)`. -/
def hide (env : Env) (s : OSDPretty) : OSDPretty := setVisible env s false

/-- The slot `QWidget::show()`, which is `setVisible(true)`. -/
def «show» (env : Env) (s : OSDPretty) : OSDPretty := setVisible env s true

/-- The method `SetMessage` (lines 396-412); the texts and the icon are not part of the
state, their effect on the layout is the size hint of the environment. -/
def SetMessage (env : Env) (s : OSDPretty) : OSDPretty :=
  if s.isVisible then Reposition env s else s

/-- The method `ShowMessage` (lines 415-440). -/
def ShowMessage (env : Env) (s : OSDPretty) : OSDPretty :=
  let s := SetMessage env s
  if s.isVisible && s.mode_ = Mode.Mode_Popup then
    if s.toggle_mode then
      let s := s.set_toggle_mode false
      let s := if !s.disable_duration then { s with timeout_ := s.timeout_.stop } else s
      hide env s
    else
      if !s.disable_duration then { s with timeout_ := s.timeout_.start } else s
  else
    let s := if s.toggle_mode then s.set_toggle_mode false else s
    «show» env s

/-- The slot `FaderFinished` (lines 454-461). -/
def FaderFinished (env : Env) (s : OSDPretty) : OSDPretty :=
  if s.fader_.direction = Direction.Backward then hide env s
  else if s.mode_ = Mode.Mode_Popup && !s.disable_duration then
    { s with timeout_ := s.timeout_.start }
  else s

/-- The slot `FaderValueChanged` (lines 463-465). -/
def FaderValueChanged (s : OSDPretty) (value : ℚ) : OSDPretty := { s with windowOpacity := value }

/-- The method `set_popup_duration` (lines 641-643). -/
def set_popup_duration (s : OSDPretty) (msec : Int) : OSDPretty :=
  { s with timeout_ := s.timeout_.setInterval msec }

end OSDPretty

namespace OSDPretty

/-- The value `current_pos()` on the widget state. -/
def current_pos_of (env : Env) (s : OSDPretty) : QPoint :=
  current_pos ((current_screen env s).map (fun sc => sc.availableGeometry)) s.pos s.width s.height

/-- The handler `enterEvent` (lines 511-518). -/
def enterEvent (s : OSDPretty) : OSDPretty :=
  if s.mode_ = Mode.Mode_Popup then { s with windowOpacity := 1 / 4 } else s

/-- The handler `leaveEvent` (lines 520-522). -/
def leaveEvent (s : OSDPretty) : OSDPretty := { s with windowOpacity := 1 }

/-- The handler `mousePressEvent` (lines 524-537); `globalPos` is the pointer position. -/
def mousePressEvent (env : Env) (s : OSDPretty) (globalPos : QPoint) : OSDPretty :=
  if s.mode_ = Mode.Mode_Popup then hide env s
  else { s with original_window_pos_ := s.pos, drag_start_pos_ := globalPos }

/-- The handler `mouseMoveEvent` (lines 539-574). -/
def mouseMoveEvent (env : Env) (s : OSDPretty) (globalPos : QPoint) : OSDPretty :=
  if s.mode_ = Mode.Mode_Draggable then
    match current_screen_at env globalPos with
    | none => s
    | some screen =>
      { s with
        pos := mouseMovePos screen.availableGeometry s.original_window_pos_ s.drag_start_pos_
                 globalPos s.width s.height
        popup_screen_ := some screen
        popup_screen_name_ := screen.name }
  else s

/-- The handler `mouseReleaseEvent` (lines 576-585). -/
def mouseReleaseEvent (env : Env) (s : OSDPretty) : OSDPretty :=
  match current_screen env s with
  | some screen =>
    if s.mode_ = Mode.Mode_Draggable then
      { s with
        popup_screen_ := some screen
        popup_screen_name_ := screen.name
        popup_pos_ := current_pos_of env s }
    else s
  | none => s

/-- The slot `ScreenAdded` (lines 257-261). -/
def ScreenAdded (s : OSDPretty) (screen : QScreen) : OSDPretty :=
  { s with screens_ := screensInsert s.screens_ screen }

/-- The slot `ScreenRemoved` (lines 263-268). -/
def ScreenRemoved (env : Env) (s : OSDPretty) (screen : QScreen) : OSDPretty :=
  let s := { s with screens_ := s.screens_.filter (fun sc => sc.name ≠ screen.name) }
  if some screen = s.popup_screen_ then { s with popup_screen_ := current_screen env s } else s

/-- The timer `timeout_` expires: being single-shot it is inactive from then on, and its
`timeout` signal runs the connected slot `hide` (line 183). Nothing happens on a timer that
is not armed. -/
def timeoutExpired (env : Env) (s : OSDPretty) : OSDPretty :=
  if s.timeout_.isActive then hide env { s with timeout_ := s.timeout_.stop } else s

/-- The timeline `fader_` reaches its end: it leaves state `Running`, and its `finished`
signal runs the connected slot `FaderFinished` (line 189). Nothing happens on a timeline
that is not running. -/
def faderCompleted (env : Env) (s : OSDPretty) : OSDPretty :=
  if s.fader_.running then FaderFinished env { s with fader_ := { s.fader_ with running := false } }
  else s

/-- The operations the host and the event loop can run on the overlay. -/
inductive Op where
  | ShowMessage
  | «show»
  | hide
  | faderCompleted
  | faderValueChanged (value : ℚ)
  | timeoutExpired
  | ReloadSettings
  | set_popup_duration (msec : Int)
  | enterEvent
  | leaveEvent
  | mousePressEvent (globalPos : QPoint)
  | mouseMoveEvent (globalPos : QPoint)
  | mouseReleaseEvent
  | ScreenAdded (screen : QScreen)
  | ScreenRemoved (screen : QScreen)

/-- One operation, run in the environment it finds. -/
def step (s : OSDPretty) (eo : Env × Op) : OSDPretty :=
  match eo with
  | (env, Op.ShowMessage) => ShowMessage env s
  | (env, Op.«show») => «show» env s
  | (env, Op.hide) => hide env s
  | (env, Op.faderCompleted) => faderCompleted env s
  | (_, Op.faderValueChanged v) => FaderValueChanged s v
  | (env, Op.timeoutExpired) => timeoutExpired env s
  | (env, Op.ReloadSettings) => ReloadSettings env s
  | (_, Op.set_popup_duration msec) => set_popup_duration s msec
  | (_, Op.enterEvent) => enterEvent s
  | (_, Op.leaveEvent) => leaveEvent s
  | (env, Op.mousePressEvent p) => mousePressEvent env s p
  | (env, Op.mouseMoveEvent p) => mouseMoveEvent env s p
  | (env, Op.mouseReleaseEvent) => mouseReleaseEvent env s
  | (_, Op.ScreenAdded sc) => ScreenAdded s sc
  | (env, Op.ScreenRemoved sc) => ScreenRemoved env s sc

/-- A sequence of operations, run from a given state. -/
def run (s : OSDPretty) (ops : List (Env × Op)) : OSDPretty := ops.foldl step s

/-! ## Concrete inputs used by the scenarios -/

/-- The display of the scenarios: usable rectangle `(0,0)-(1920,1080)`. -/
def fullHD : QRect := QRect.ofXYWH 0 0 1920 1080

/-- The only screen of the scenarios. -/
def scenarioScreen : QScreen := ⟨"screen0", fullHD, fullHD⟩

/-- A non-Windows desktop with one screen whose stored settings leave fading off and the
popup duration on; the window's size hint is `300x100`. -/
def plainEnv : Env :=
  { isWin := false
    settings := ⟨some false, some false, none, none⟩
    appScreens := [scenarioScreen]
    sizeHint := ⟨300, 100⟩ }

/-- The same desktop after the user has stored `disable_duration = true`. -/
def durationDisabledEnv : Env :=
  { plainEnv with settings := ⟨some true, some false, none, none⟩ }

/-- The same desktop with `fading = true` stored. -/
def fadingEnv : Env :=
  { plainEnv with settings := ⟨some false, some true, none, none⟩ }

/-- A freshly constructed popup overlay. -/
def freshPopup : OSDPretty := new Mode.Mode_Popup ⟨300, 100⟩

/-- A popup that is on screen, fading off, its 5000 ms timer counting: a fresh overlay
after one `ShowMessage`. -/
def shownPopup : OSDPretty := run freshPopup [(plainEnv, Op.ShowMessage)]

/-- The same popup with the one-shot toggle-mode flag set by the host. -/
def shownPopupToggle : OSDPretty := shownPopup.set_toggle_mode true

/-- A popup that is on screen with fading enabled, its fade-in finished: a fresh overlay
after one `ShowMessage` and the completion of the forward timeline. -/
def fadedInPopup : OSDPretty :=
  run freshPopup [(fadingEnv, Op.ShowMessage), (fadingEnv, Op.faderCompleted)]

/-- A popup with fading enabled that was dismissed by a pointer press: the press reversed the
fader and the completion of the backward timeline hid the window. -/
def pressDismissedPopup : OSDPretty :=
  run fadedInPopup [(fadingEnv, Op.mousePressEvent ⟨1700, 50⟩), (fadingEnv, Op.faderCompleted)]

end OSDPretty

/-! ## Shared lemmas -/

namespace OSDPretty

/-- C++ division by two, by the sign of the dividend. -/
theorem tdiv_two_cases (a : Int) :
    (0 ≤ a ∧ Int.tdiv a 2 = a / 2) ∨ (a < 0 ∧ Int.tdiv a 2 = -((-a) / 2)) := by
  rcases le_or_lt 0 a with h | h
  · exact Or.inl ⟨h, Int.tdiv_eq_ediv h (by decide)⟩
  · refine Or.inr ⟨h, ?_⟩
    have h1 : Int.tdiv (-a) 2 = (-a) / 2 := Int.tdiv_eq_ediv (by omega) (by decide)
    rw [Int.neg_tdiv] at h1
    omega

/-- The x coordinate `Reposition` resolves, unfolded. -/
theorem RepositionPos_x (isWin : Bool) (geometry : QRect) (popup_pos : QPoint) (w h : Int) :
    (RepositionPos isWin geometry popup_pos w h).x =
      if isWin then
        (if popup_pos.x < 0 then geometry.x2 - w else geometry.x1 + popup_pos.x)
      else
        max 0 (min (geometry.x2 - w)
          (if popup_pos.x < 0 then geometry.x2 - w else geometry.x1 + popup_pos.x)) := by
  cases isWin <;> simp [RepositionPos, qBound, QRect.right, QRect.left]

/-- The y coordinate `Reposition` resolves, unfolded. -/
theorem RepositionPos_y (isWin : Bool) (geometry : QRect) (popup_pos : QPoint) (w h : Int) :
    (RepositionPos isWin geometry popup_pos w h).y =
      if isWin then
        (if popup_pos.y < 0 then geometry.y2 - h else geometry.y1 + popup_pos.y)
      else
        max 0 (min (geometry.y2 - h)
          (if popup_pos.y < 0 then geometry.y2 - h else geometry.y1 + popup_pos.y)) := by
  cases isWin <;> simp [RepositionPos, qBound, QRect.bottom, QRect.top]

/-- A value inside the 32-bit range is stored unchanged. -/
theorem wrapInt32_of_inRange (v : Int) (hlo : INT_MIN ≤ v) (hhi : v ≤ INT_MAX) :
    wrapInt32 v = v := by
  unfold wrapInt32 INT_MIN INT_MAX at *
  omega

/-- When neither sum leaves the 32-bit range, the coordinates with the 32-bit sums are those
of the integer arithmetic. -/
theorem RepositionPosInt32_eq (isWin : Bool) (geometry : QRect) (popup_pos : QPoint)
    (w h : Int)
    (hx : 0 ≤ popup_pos.x →
      INT_MIN ≤ geometry.left + popup_pos.x ∧ geometry.left + popup_pos.x ≤ INT_MAX)
    (hy : 0 ≤ popup_pos.y →
      INT_MIN ≤ geometry.top + popup_pos.y ∧ geometry.top + popup_pos.y ≤ INT_MAX) :
    RepositionPosInt32 isWin geometry popup_pos w h = RepositionPos isWin geometry popup_pos w h := by
  have ex : (if popup_pos.x < 0 then geometry.right - w
      else wrapInt32 (geometry.left + popup_pos.x))
      = (if popup_pos.x < 0 then geometry.right - w else geometry.left + popup_pos.x) := by
    split
    · rfl
    · rename_i hneg
      exact wrapInt32_of_inRange _ (hx (by omega)).1 (hx (by omega)).2
  have ey : (if popup_pos.y < 0 then geometry.bottom - h
      else wrapInt32 (geometry.top + popup_pos.y))
      = (if popup_pos.y < 0 then geometry.bottom - h else geometry.top + popup_pos.y) := by
    split
    · rfl
    · rename_i hneg
      exact wrapInt32_of_inRange _ (hy (by omega)).1 (hy (by omega)).2
  simp only [RepositionPosInt32, RepositionPos, ex, ey]

/-- The position `Reposition` moves the window to is `RepositionPosInt32` at the popup
screen's usable rectangle, the stored position and the window's new size. -/
theorem Reposition_pos (env : Env) (s : OSDPretty) (screen : QScreen)
    (h : s.popup_screen_ = some screen) :
    (Reposition env s).pos = RepositionPosInt32 env.isWin screen.availableGeometry s.popup_pos_
      env.sizeHint.width env.sizeHint.height := by
  simp [Reposition, h, width, height]

/-- With the stored offsets in range, that position is `RepositionPos`. -/
theorem Reposition_pos_inRange (env : Env) (s : OSDPretty) (screen : QScreen)
    (h : s.popup_screen_ = some screen)
    (hx : 0 ≤ s.popup_pos_.x →
      INT_MIN ≤ screen.availableGeometry.left + s.popup_pos_.x ∧
      screen.availableGeometry.left + s.popup_pos_.x ≤ INT_MAX)
    (hy : 0 ≤ s.popup_pos_.y →
      INT_MIN ≤ screen.availableGeometry.top + s.popup_pos_.y ∧
      screen.availableGeometry.top + s.popup_pos_.y ≤ INT_MAX) :
    (Reposition env s).pos = RepositionPos env.isWin screen.availableGeometry s.popup_pos_
      env.sizeHint.width env.sizeHint.height := by
  rw [Reposition_pos env s screen h, RepositionPosInt32_eq _ _ _ _ _ hx hy]

/-- In Draggable mode, with a screen under the pointer, `mouseMoveEvent` moves the window to
`mouseMovePos` at that screen's usable rectangle. -/
theorem mouseMoveEvent_pos (env : Env) (s : OSDPretty) (globalPos : QPoint) (screen : QScreen)
    (hm : s.mode_ = Mode.Mode_Draggable) (hs : current_screen_at env globalPos = some screen) :
    (mouseMoveEvent env s globalPos).pos = mouseMovePos screen.availableGeometry
      s.original_window_pos_ s.drag_start_pos_ globalPos s.width s.height := by
  simp [mouseMoveEvent, hm, hs]

/-- In Draggable mode, with a current screen, `mouseReleaseEvent` stores `current_pos` taken
at that screen's usable rectangle. -/
theorem mouseReleaseEvent_popup_pos (env : Env) (s : OSDPretty) (screen : QScreen)
    (hm : s.mode_ = Mode.Mode_Draggable) (hs : current_screen env s = some screen) :
    (mouseReleaseEvent env s).popup_pos_
      = current_pos (some screen.availableGeometry) s.pos s.width s.height := by
  simp [mouseReleaseEvent, current_pos_of, hm, hs]

/-! ## C1: far-edge placement -/

/-- C1, as stated, fails: on the scenario of the specification (usable rectangle
`(0,0)-(1920,1080)`, window `300x100`, stored position `(-1, 0)`) `Reposition` resolves the
top-left `(1619, 0)` on either build, not `(1620, 0)`, so the window's far edge is at 1919 and
not at `rect.x + rect.width = 1920`; and on a non-Windows build a window wider than the display
is put at `x = 0`. -/
theorem C1_far_edge_counterexample :
    RepositionPos false fullHD ⟨-1, 0⟩ 300 100 = ⟨1619, 0⟩ ∧
    RepositionPos true fullHD ⟨-1, 0⟩ 300 100 = ⟨1619, 0⟩ ∧
    (RepositionPos false fullHD ⟨-1, 0⟩ 300 100).x + 300 ≠ fullHD.x + fullHD.width ∧
    (RepositionPos true fullHD ⟨-1, 0⟩ 300 100).x + 300 ≠ fullHD.x + fullHD.width ∧
    (RepositionPos false fullHD ⟨-1, 0⟩ 2000 100).x + 2000 ≠ fullHD.x + fullHD.width - 1 := by
  decide

/-- C1, amended: for a stored position with a negative x (respectively y), `Reposition` puts
the window's far edge on Qt's inclusive `right()` (respectively `bottom()`) of the usable
rectangle, one unit short of `rect.x + rect.width`: `resolved.x + windowWidth =
rect.x + rect.width - 1`. This holds on a Windows build always, and on the other builds
whenever `right() - windowWidth` is not negative (their clamp has the lower bound 0). -/
theorem C1_Reposition_far_edge (isWin : Bool) (geometry : QRect) (popup_pos : QPoint)
    (width height : Int) :
    (popup_pos.x < 0 → (isWin = true ∨ 0 ≤ geometry.right - width) →
      (RepositionPos isWin geometry popup_pos width height).x + width
        = geometry.x + geometry.width - 1) ∧
    (popup_pos.y < 0 → (isWin = true ∨ 0 ≤ geometry.bottom - height) →
      (RepositionPos isWin geometry popup_pos width height).y + height
        = geometry.y + geometry.height - 1) := by
  constructor
  · intro hneg hplat
    rw [RepositionPos_x]
    simp only [QRect.right, QRect.x, QRect.width] at *
    rcases hplat with hw | hfit
    · subst hw
      simp only [if_true, if_pos hneg]
      omega
    · cases isWin <;> simp only [if_pos hneg, if_true, Bool.false_eq_true, if_false] <;> omega
  · intro hneg hplat
    rw [RepositionPos_y]
    simp only [QRect.bottom, QRect.y, QRect.height] at *
    rcases hplat with hw | hfit
    · subst hw
      simp only [if_true, if_pos hneg]
      omega
    · cases isWin <;> simp only [if_pos hneg, if_true, Bool.false_eq_true, if_false] <;> omega

/-- C1, amended, on the scenario of the specification: the far edge lands on 1919. -/
theorem C1_Reposition_far_edge_witness :
    ((-1 : Int) < 0 ∧ (false = true ∨ 0 ≤ fullHD.right - 300)) ∧
    (RepositionPos false fullHD ⟨-1, 0⟩ 300 100).x + 300 = fullHD.x + fullHD.width - 1 :=
  ⟨⟨by decide, Or.inr (by decide)⟩,
   (C1_Reposition_far_edge false fullHD ⟨-1, 0⟩ 300 100).1 (by decide) (Or.inr (by decide))⟩

/-! ## C2: the clamp of the non-Windows builds -/

/-- C3: for every build, usable rectangle, window size and stored position with a negative
component on an axis, `current_pos` applied to the position `Reposition` resolved, against the
same rectangle and window size, returns exactly -1 on that axis. -/
theorem C3_current_pos_of_Reposition (isWin : Bool) (geometry : QRect) (popup_pos : QPoint)
    (width height : Int) :
    (popup_pos.x < 0 →
      (current_pos (some geometry) (RepositionPos isWin geometry popup_pos width height)
        width height).x = -1) ∧
    (popup_pos.y < 0 →
      (current_pos (some geometry) (RepositionPos isWin geometry popup_pos width height)
        width height).y = -1) := by
  constructor
  · intro hneg
    have hx := RepositionPos_x isWin geometry popup_pos width height
    simp only [if_pos hneg] at hx
    have hge : (RepositionPos isWin geometry popup_pos width height).x ≥ geometry.right - width := by
      rw [hx]; simp only [QRect.right]
      cases isWin <;> simp only [if_true, Bool.false_eq_true, if_false] <;> omega
    simp only [current_pos, if_pos hge]
  · intro hneg
    have hy := RepositionPos_y isWin geometry popup_pos width height
    simp only [if_pos hneg] at hy
    have hge : (RepositionPos isWin geometry popup_pos width height).y ≥ geometry.bottom - height := by
      rw [hy]; simp only [QRect.bottom]
      cases isWin <;> simp only [if_true, Bool.false_eq_true, if_false] <;> omega
    simp only [current_pos, if_pos hge]

/-- C3 on the scenario of the specification: `(-1, 0)` resolves to `(1619, 0)`, which encodes
back to -1 on the x axis. -/
theorem C3_current_pos_of_Reposition_witness :
    (-1 : Int) < 0 ∧
    (current_pos (some fullHD) (RepositionPos false fullHD ⟨-1, 0⟩ 300 100) 300 100).x = -1 :=
  ⟨by decide, (C3_current_pos_of_Reposition false fullHD ⟨-1, 0⟩ 300 100).1 (by decide)⟩

end OSDPretty

namespace OSDPretty

/-! ## C4: the drag clamp and the centre snap -/

/-- The position `mouseMoveEvent` moves to, by components. -/
theorem mouseMovePos_eq (geometry : QRect) (orig start globalPos : QPoint) (w h : Int) :
    mouseMovePos geometry orig start globalPos w h =
      ⟨snapX geometry (clampedX geometry (orig.x + (globalPos.x - start.x)) w) w,
       qBound geometry.top (orig.y + (globalPos.y - start.y)) (geometry.bottom - h)⟩ := rfl

/-- The snap target stays inside the display when the window, of width `w >= 0`, is strictly narrower than it. -/
theorem snap_x_inside (geometry : QRect) (w : Int) (h0 : 0 ≤ w) (hw : w < geometry.width) :
    geometry.x1 ≤ snap_x geometry w ∧ snap_x geometry w + w ≤ geometry.x1 + geometry.width := by
  simp only [snap_x, QRect.center, QRect.width] at *
  rcases tdiv_two_cases (geometry.x1 + geometry.x2) with ⟨h1, e1⟩ | ⟨h1, e1⟩ <;>
  rcases tdiv_two_cases w with ⟨h2, e2⟩ | ⟨h2, e2⟩ <;>
  rw [e1, e2] <;> omega

/-- C4, as stated, fails: with a window exactly as wide as the display (usable rectangle
`(0,0)-(1920,1080)`, window `1920x100`) the clamp leaves `x = 0`, the snap target is
`959 - 960 = -1`, within the proximity of 0, and `mouseMoveEvent` moves the window to
`x = -1`, left of the display. -/
theorem C4_drag_counterexample :
    (1920 : Int) ≤ fullHD.width ∧ (100 : Int) ≤ fullHD.height ∧
    mouseMovePos fullHD ⟨0, 0⟩ ⟨5, 5⟩ ⟨5, 5⟩ 1920 100 = ⟨-1, 0⟩ ∧
    ¬ (fullHD.x ≤ (mouseMovePos fullHD ⟨0, 0⟩ ⟨5, 5⟩ ⟨5, 5⟩ 1920 100).x) := by
  decide

/-- C4, amended: in Draggable mode, for every usable rectangle under the pointer, every window (of
width `>= 0`) strictly narrower than that rectangle and no taller than it, every drag session and every
pointer position, the position `mouseMoveEvent` moves the window to keeps the whole window
inside the rectangle on both axes, also when the centre snap replaces the clamped x. -/
theorem C4_mouseMove_inside (geometry : QRect) (original_window_pos drag_start_pos
    globalPos : QPoint) (width height : Int)
    (h0 : 0 ≤ width) (hw : width < geometry.width) (hh : height ≤ geometry.height) :
    geometry.x ≤ (mouseMovePos geometry original_window_pos drag_start_pos globalPos
        width height).x ∧
    (mouseMovePos geometry original_window_pos drag_start_pos globalPos width height).x + width
      ≤ geometry.x + geometry.width ∧
    geometry.y ≤ (mouseMovePos geometry original_window_pos drag_start_pos globalPos
        width height).y ∧
    (mouseMovePos geometry original_window_pos drag_start_pos globalPos width height).y + height
      ≤ geometry.y + geometry.height := by
  rw [mouseMovePos_eq]
  have hs := snap_x_inside geometry width h0 hw
  simp only [QRect.x, QRect.y, QRect.width, QRect.height, QRect.top, QRect.bottom, qBound] at *
  refine ⟨?_, ?_, ?_, ?_⟩
  · unfold snapX
    split
    · exact hs.1
    · simp only [clampedX, qBound, QRect.left, QRect.right]; omega
  · unfold snapX
    split
    · omega
    · simp only [clampedX, qBound, QRect.left, QRect.right]; omega
  · omega
  · omega

/-- C4, amended, on a drag across the scenario display with a `300x100` window. -/
theorem C4_mouseMove_inside_witness :
    ((0 : Int) ≤ 300 ∧ (300 : Int) < fullHD.width ∧ (100 : Int) ≤ fullHD.height) ∧
    fullHD.x ≤ (mouseMovePos fullHD ⟨1619, 0⟩ ⟨1700, 50⟩ ⟨4000, -70⟩ 300 100).x ∧
    (mouseMovePos fullHD ⟨1619, 0⟩ ⟨1700, 50⟩ ⟨4000, -70⟩ 300 100).x + 300
      ≤ fullHD.x + fullHD.width ∧
    fullHD.y ≤ (mouseMovePos fullHD ⟨1619, 0⟩ ⟨1700, 50⟩ ⟨4000, -70⟩ 300 100).y ∧
    (mouseMovePos fullHD ⟨1619, 0⟩ ⟨1700, 50⟩ ⟨4000, -70⟩ 300 100).y + 100
      ≤ fullHD.y + fullHD.height :=
  ⟨⟨by decide, by decide, by decide⟩,
   C4_mouseMove_inside fullHD ⟨1619, 0⟩ ⟨1700, 50⟩ ⟨4000, -70⟩ 300 100 (by decide) (by decide)
     (by decide)⟩

/-! ## C5: the centre snap -/

/-- C5, as stated, fails on its own witness: for the usable rectangle `(0,0)-(1920,1080)`
the code's `geometry.center().x()` is `(0 + 1919) / 2 = 959`, not 960, the snap target for a
window of width 300 is 809, and the clamped candidate 815 ends at 809, not at 810; the
candidate 829, which is 19 away from 810, is not snapped at all. -/
theorem C5_snap_counterexample :
    fullHD.center.x = 959 ∧ snap_x fullHD 300 = 809 ∧
    clampedX fullHD 815 300 = 815 ∧
    (mouseMovePos fullHD ⟨815, 0⟩ ⟨0, 0⟩ ⟨0, 0⟩ 300 100).x = 809 ∧
    (mouseMovePos fullHD ⟨815, 0⟩ ⟨0, 0⟩ ⟨0, 0⟩ 300 100).x ≠ 810 ∧
    (mouseMovePos fullHD ⟨829, 0⟩ ⟨0, 0⟩ ⟨0, 0⟩ 300 100).x = 829 := by
  decide

/-- C5, amended: let `c` be the candidate x after clamping and `s` the snap target the code
computes, `geometry.center().x() - width() / 2`, where `center().x()` is
`(left() + right()) / 2` with Qt's inclusive `right()` (959, not 960, for a display 1920 wide).
If `c` is less than 20 away from `s` the final x is exactly `s`; if `c` is more than 20 away
from `s` the final x is `c`. On the display `(0,0)-(1920,1080)` with window width 300 the
candidate 815 gives the final x 809. -/
theorem C5_centre_snap (geometry : QRect) (original_window_pos drag_start_pos
    globalPos : QPoint) (width height : Int) :
    (|clampedX geometry (original_window_pos.x + (globalPos.x - drag_start_pos.x)) width
        - snap_x geometry width| < kSnapProximity →
      (mouseMovePos geometry original_window_pos drag_start_pos globalPos width height).x
        = snap_x geometry width) ∧
    (|clampedX geometry (original_window_pos.x + (globalPos.x - drag_start_pos.x)) width
        - snap_x geometry width| > kSnapProximity →
      (mouseMovePos geometry original_window_pos drag_start_pos globalPos width height).x
        = clampedX geometry (original_window_pos.x + (globalPos.x - drag_start_pos.x)) width) := by
  rw [mouseMovePos_eq]
  simp only [snapX]
  constructor
  · intro h
    rw [abs_lt] at h
    rw [if_pos ⟨by omega, by omega⟩]
  · intro h
    rw [gt_iff_lt, lt_abs] at h
    rw [if_neg (by omega)]

/-- C5, amended, on the scenario of the specification: candidate 815 is 6 away from the snap
target 809 and ends there. -/
theorem C5_centre_snap_witness :
    |clampedX fullHD ((815 : Int) + (0 - 0)) 300 - snap_x fullHD 300| < kSnapProximity ∧
    (mouseMovePos fullHD ⟨815, 0⟩ ⟨0, 0⟩ ⟨0, 0⟩ 300 100).x = snap_x fullHD 300 ∧
    snap_x fullHD 300 = 809 :=
  ⟨by decide,
   (C5_centre_snap fullHD ⟨815, 0⟩ ⟨0, 0⟩ ⟨0, 0⟩ 300 100).1 (by decide),
   by decide⟩

end OSDPretty

namespace OSDPretty

/-! ## Frame lemmas: what the geometry and settings code leaves alone -/

/-- The method `Reposition` writes the size and the position only. -/
theorem Reposition_frame (env : Env) (s : OSDPretty) :
    ∃ p sz, Reposition env s = { s with pos := p, size := sz } := by
  unfold Reposition
  cases h : s.popup_screen_ with
  | none => exact ⟨s.pos, env.sizeHint, by simp [h]⟩
  | some sc =>
    exact ⟨RepositionPosInt32 env.isWin sc.availableGeometry s.popup_pos_ env.sizeHint.width
      env.sizeHint.height, env.sizeHint, by simp [h, width, height]⟩

/-- The method `SetMessage` writes the size and the position only. -/
theorem SetMessage_frame (env : Env) (s : OSDPretty) :
    ∃ p sz, SetMessage env s = { s with pos := p, size := sz } := by
  unfold SetMessage
  split
  · exact Reposition_frame env s
  · exact ⟨s.pos, s.size, rfl⟩

/-- The base-class hide only clears the visibility. -/
theorem QWidget_setVisible_false (env : Env) (s : OSDPretty) :
    QWidget_setVisible env s false = { s with isVisible := false } := by
  simp [QWidget_setVisible]

/-- The method `Reposition` leaves the timer alone. -/
theorem Reposition_timeout_ (env : Env) (s : OSDPretty) :
    (Reposition env s).timeout_ = s.timeout_ := by
  obtain ⟨p, sz, h⟩ := Reposition_frame env s
  rw [h]

/-- The method `Reposition` leaves the duration-disabled flag alone. -/
theorem Reposition_disable_duration_ (env : Env) (s : OSDPretty) :
    (Reposition env s).disable_duration_ = s.disable_duration_ := by
  obtain ⟨p, sz, h⟩ := Reposition_frame env s
  rw [h]

/-- The method `Load` neither starts nor stops the timer. -/
theorem Load_timeout_ (env : Env) (s : OSDPretty) :
    (Load env s).timeout_ = s.timeout_ := by
  simp only [Load, set_font, Reposition_timeout_]
  (repeat' split) <;> rfl

/-- The method `Load` sets the duration-disabled flag to the stored value (default false). -/
theorem Load_disable_duration_ (env : Env) (s : OSDPretty) :
    (Load env s).disable_duration_ = env.settings.disable_duration.getD false := by
  simp only [Load, set_font, Reposition_disable_duration_]
  (repeat' split) <;> rfl

/-- The handler `showEvent` is its three parts in sequence: prepare, `Load` and `Reposition`,
start. -/
theorem showEvent_eq (env : Env) (s : OSDPretty) :
    showEvent env s = showEvent_start (Reposition env (Load env (showEvent_prepare env s))) :=
  rfl

/-- The first part of `showEvent` leaves the timer alone. -/
theorem showEvent_prepare_timeout_ (env : Env) (s : OSDPretty) :
    (showEvent_prepare env s).timeout_ = s.timeout_ := by
  unfold showEvent_prepare
  simp only []
  split <;> rfl

/-- The handler `showEvent` sets the flag from the stored settings and either leaves the timer
as it was or, the duration being enabled, starts it. -/
theorem showEvent_timer (env : Env) (s : OSDPretty) :
    (showEvent env s).disable_duration_ = env.settings.disable_duration.getD false ∧
    ((showEvent env s).timeout_ = s.timeout_ ∨
      ((showEvent env s).disable_duration_ = false ∧
        (showEvent env s).timeout_ = s.timeout_.start)) := by
  rw [showEvent_eq]
  have ht : (Reposition env (Load env (showEvent_prepare env s))).timeout_ = s.timeout_ := by
    rw [Reposition_timeout_, Load_timeout_, showEvent_prepare_timeout_]
  have hd : (Reposition env (Load env (showEvent_prepare env s))).disable_duration_
      = env.settings.disable_duration.getD false := by
    rw [Reposition_disable_duration_, Load_disable_duration_]
  generalize Reposition env (Load env (showEvent_prepare env s)) = u at ht hd
  unfold showEvent_start
  split_ifs with h1 h2 h3
  · exact ⟨hd, Or.inl ht⟩
  · simp only [disable_duration, Bool.not_eq_true'] at h3
    exact ⟨hd, Or.inr ⟨h3, by rw [← ht]⟩⟩
  · exact ⟨hd, Or.inl ht⟩
  · exact ⟨hd, Or.inl ht⟩

/-- The method `SetMessage` leaves the timer alone. -/
theorem SetMessage_timeout_ (env : Env) (s : OSDPretty) :
    (SetMessage env s).timeout_ = s.timeout_ := by
  obtain ⟨p, sz, h⟩ := SetMessage_frame env s
  rw [h]

/-- The method `SetMessage` leaves the duration-disabled flag alone. -/
theorem SetMessage_disable_duration_ (env : Env) (s : OSDPretty) :
    (SetMessage env s).disable_duration_ = s.disable_duration_ := by
  obtain ⟨p, sz, h⟩ := SetMessage_frame env s
  rw [h]

/-- The override `setVisible` arms the timer only through a show event that found the
duration enabled. -/
theorem setVisible_guarded (env : Env) (s : OSDPretty) (visible : Bool)
    (hact : (setVisible env s visible).timeout_.isActive = true) :
    s.timeout_.isActive = true ∨ (setVisible env s visible).disable_duration_ = false := by
  unfold setVisible at hact ⊢
  split_ifs at hact ⊢ with h1
  · exact Or.inl hact
  · unfold QWidget_setVisible at hact ⊢
    split_ifs at hact ⊢ with h2 h3
    · exact Or.inl hact
    · rcases (showEvent_timer env { s with isVisible := true }).2 with h | ⟨h, _⟩
      · rw [h] at hact; exact Or.inl hact
      · exact Or.inr h
    · exact Or.inl hact

/-- The method `ShowMessage` arms the timer only while the duration is enabled. -/
theorem ShowMessage_guarded (env : Env) (s : OSDPretty)
    (hact : (ShowMessage env s).timeout_.isActive = true) :
    s.timeout_.isActive = true ∨ (ShowMessage env s).disable_duration_ = false := by
  have ht := SetMessage_timeout_ env s
  have hd := SetMessage_disable_duration_ env s
  unfold ShowMessage at hact ⊢
  simp only [] at hact ⊢
  generalize SetMessage env s = t at ht hd hact ⊢
  split_ifs at hact ⊢ with h1 h2 h3 h4 h5
  · rcases setVisible_guarded env _ false hact with h | h
    · simp [QTimer.stop, QTimer.isActive, set_toggle_mode] at h
    · exact Or.inr h
  · rcases setVisible_guarded env _ false hact with h | h
    · left; rw [← ht]; exact h
    · exact Or.inr h
  · right
    simpa [disable_duration] using h4
  · left; rw [← ht]; exact hact
  · rcases setVisible_guarded env _ true hact with h | h
    · left; rw [← ht]; exact h
    · exact Or.inr h
  · rcases setVisible_guarded env _ true hact with h | h
    · left; rw [← ht]; exact h
    · exact Or.inr h

/-- The slot `FaderFinished` arms the timer only while the duration is enabled. -/
theorem FaderFinished_guarded (env : Env) (s : OSDPretty)
    (hact : (FaderFinished env s).timeout_.isActive = true) :
    s.timeout_.isActive = true ∨ (FaderFinished env s).disable_duration_ = false := by
  unfold FaderFinished at hact ⊢
  split_ifs at hact ⊢ with h1 h2
  · exact setVisible_guarded env s false hact
  · right
    simp only [Bool.and_eq_true, decide_eq_true_eq, Bool.not_eq_true', disable_duration] at h2
    exact h2.2
  · exact Or.inl hact

/-! ## C6: `ShowMessage` on a popup that is already visible -/

/-- C6: for every state in which the window is visible, the mode is Popup, fading is disabled
and the duration is not disabled, `ShowMessage` with toggle-mode false leaves the window
visible and re-arms the auto-hide timer from its full configured interval; with toggle-mode
true it stops the timer, hides the window at once and leaves toggle-mode cleared. -/
theorem C6_ShowMessage_on_visible_popup (env : Env) (s : OSDPretty)
    (hvis : s.isVisible = true) (hmode : s.mode_ = Mode.Mode_Popup)
    (hfade : s.fading_enabled_ = false) (hdur : s.disable_duration_ = false) :
    (s.toggle_mode_ = false →
      (ShowMessage env s).isVisible = true ∧
      (ShowMessage env s).timeout_ = ⟨s.timeout_.interval, some s.timeout_.interval⟩ ∧
      (ShowMessage env s).toggle_mode_ = false) ∧
    (s.toggle_mode_ = true →
      (ShowMessage env s).isVisible = false ∧
      (ShowMessage env s).timeout_ = ⟨s.timeout_.interval, none⟩ ∧
      (ShowMessage env s).toggle_mode_ = false) := by
  obtain ⟨p, sz, hset⟩ := SetMessage_frame env s
  constructor
  · intro htog
    simp [ShowMessage, hset, hvis, hmode, hdur, htog, toggle_mode, disable_duration,
      QTimer.start]
  · intro htog
    simp [ShowMessage, hset, hvis, hmode, hdur, hfade, htog, toggle_mode, disable_duration,
      set_toggle_mode, QTimer.stop, hide, setVisible, QWidget_setVisible]

/-- C6 on the two scenarios of the specification (Popup mode, fading disabled, duration
5000 ms): without toggle-mode the visible popup stays visible with its timer back at 5000 ms;
with toggle-mode it is hidden, its timer stopped and the flag cleared. -/
theorem C6_ShowMessage_on_visible_popup_witness :
    ((ShowMessage plainEnv shownPopup).isVisible = true ∧
      (ShowMessage plainEnv shownPopup).timeout_ = ⟨5000, some 5000⟩ ∧
      (ShowMessage plainEnv shownPopup).toggle_mode_ = false) ∧
    ((ShowMessage plainEnv shownPopupToggle).isVisible = false ∧
      (ShowMessage plainEnv shownPopupToggle).timeout_ = ⟨5000, none⟩ ∧
      (ShowMessage plainEnv shownPopupToggle).toggle_mode_ = false) :=
  ⟨(C6_ShowMessage_on_visible_popup plainEnv shownPopup (by decide) (by decide) (by decide)
      (by decide)).1 (by decide),
   (C6_ShowMessage_on_visible_popup plainEnv shownPopupToggle (by decide) (by decide)
      (by decide) (by decide)).2 (by decide)⟩

/-! ## C7: the auto-hide timer and the duration-disabled flag -/

/-- C7, evaluated on the code: a popup is shown while the stored settings leave the duration
on, so its timer is armed; the settings are then stored with `disable_duration = true` and
`ReloadSettings` runs. The flag is now true and the timer is still armed; when it expires the
window is hidden, although the duration is disabled. -/
theorem C7_timer_armed_while_duration_disabled :
    (run freshPopup [(plainEnv, Op.ShowMessage),
        (durationDisabledEnv, Op.ReloadSettings)]).disable_duration_ = true ∧
    (run freshPopup [(plainEnv, Op.ShowMessage),
        (durationDisabledEnv, Op.ReloadSettings)]).timeout_.isActive = true ∧
    (run freshPopup [(plainEnv, Op.ShowMessage),
        (durationDisabledEnv, Op.ReloadSettings)]).isVisible = true ∧
    (run freshPopup [(plainEnv, Op.ShowMessage), (durationDisabledEnv, Op.ReloadSettings),
        (durationDisabledEnv, Op.timeoutExpired)]).isVisible = false := by
  decide

/-- What holds of C7 on the code: no operation starts the auto-hide timer while the
duration-disabled flag is true. If the timer is not armed before an operation and the flag is
true after it, the timer is not armed after it either. (A timer armed earlier is not stopped by
a later `Load` that sets the flag.) -/
theorem timer_never_started_while_duration_disabled (s : OSDPretty) (eo : Env × Op)
    (h0 : s.timeout_.isActive = false) (hd : (step s eo).disable_duration_ = true) :
    (step s eo).timeout_.isActive = false := by
  by_contra hact
  rw [Bool.not_eq_false] at hact
  have key : s.timeout_.isActive = true ∨ (step s eo).disable_duration_ = false := by
    obtain ⟨env, op⟩ := eo
    cases op <;> simp only [step] at hact ⊢
    · exact ShowMessage_guarded env s hact
    · exact setVisible_guarded env s true hact
    · exact setVisible_guarded env s false hact
    · unfold faderCompleted at hact ⊢
      split_ifs at hact ⊢
      · exact FaderFinished_guarded env _ hact
      · exact Or.inl hact
    · exact Or.inl hact
    · unfold timeoutExpired at hact ⊢
      split_ifs at hact ⊢ with h1
      · exact Or.inl h1
      · exact Or.inl hact
    · left
      rw [ReloadSettings, Load_timeout_] at hact
      exact hact
    · left
      simp only [set_popup_duration, QTimer.setInterval, QTimer.isActive,
        Option.isSome_map'] at hact ⊢
      exact hact
    · left
      unfold enterEvent at hact
      split_ifs at hact <;> exact hact
    · exact Or.inl hact
    · unfold mousePressEvent at hact ⊢
      split_ifs at hact ⊢
      · exact setVisible_guarded env s false hact
      · exact Or.inl hact
    · left
      unfold mouseMoveEvent at hact
      split_ifs at hact
      · split at hact <;> exact hact
      · exact hact
    · left
      unfold mouseReleaseEvent at hact
      split at hact
      · split_ifs at hact <;> exact hact
      · exact hact
    · exact Or.inl hact
    · left
      unfold ScreenRemoved at hact
      simp only [] at hact
      split_ifs at hact <;> exact hact
  rcases key with h | h
  · rw [h0] at h; exact Bool.false_ne_true h
  · rw [hd] at h; exact Bool.false_ne_true h.symm

/-! ## C8: the deferred hide under fading -/

/-- C8: for every state in which the window is visible, fading is enabled and the fader
direction is forward (the fade-in running or finished), `hide()` does not hide the window: it
sets the fader direction to backward and starts the fader, touching nothing else; and when
that backward run completes, `FaderFinished` hides the window and starts no other fade. -/
theorem C8_hide_deferred_under_fading (env env2 : Env) (s : OSDPretty)
    (hvis : s.isVisible = true) (hfade : s.fading_enabled_ = true)
    (hdir : s.fader_.direction = Direction.Forward) :
    hide env s = { s with fader_ := ⟨Direction.Backward, true⟩ } ∧
    (hide env s).isVisible = true ∧
    faderCompleted env2 (hide env s)
      = { s with fader_ := ⟨Direction.Backward, false⟩, isVisible := false } := by
  have h1 : hide env s = { s with fader_ := ⟨Direction.Backward, true⟩ } := by
    simp [hide, setVisible, hfade, hdir, QTimeLine.setDirection, QTimeLine.start]
  refine ⟨h1, ?_, ?_⟩
  · rw [h1]; exact hvis
  · rw [h1]
    simp [faderCompleted, FaderFinished, hide, setVisible, QWidget_setVisible]

/-- C8 on a popup whose fade-in has finished. -/
theorem C8_hide_deferred_under_fading_witness :
    (hide fadingEnv fadedInPopup).isVisible = true ∧
    (faderCompleted fadingEnv (hide fadingEnv fadedInPopup)).isVisible = false :=
  ⟨(C8_hide_deferred_under_fading fadingEnv fadingEnv fadedInPopup (by decide) (by decide)
      (by decide)).2.1,
   by rw [(C8_hide_deferred_under_fading fadingEnv fadingEnv fadedInPopup (by decide)
      (by decide) (by decide)).2.2]⟩

/-! ## C9: the immediate hide and the timer -/

/-- What `hide()` does on the code when fading is disabled or the fader direction is already
backward: it clears the visibility and touches nothing else, the timer included. -/
theorem hide_immediate_only_clears_visibility (env : Env) (s : OSDPretty)
    (h : s.fading_enabled_ = false ∨ s.fader_.direction = Direction.Backward) :
    hide env s = { s with isVisible := false } := by
  rcases h with h | h <;> simp [hide, setVisible, QWidget_setVisible, h]

/-- C9, evaluated on the code. With fading disabled, a visible popup whose timer is counting
is hidden by `hide()`, and by a pointer press, with the timer still armed, while the other
dismissal path, the toggle branch of `ShowMessage`, stops the timer before it hides. With
fading enabled, a popup dismissed by a pointer press is hidden by `FaderFinished` (direction
backward) with the timer still armed; the next `ShowMessage` starts its fade-in, the stale
timer expires, `hide()` reverses the fade, and the new popup is hidden again. -/
theorem C9_press_dismiss_leaves_timer_armed :
    (shownPopup.fading_enabled_ = false ∧ shownPopup.timeout_ = ⟨5000, some 5000⟩ ∧
      (hide plainEnv shownPopup).isVisible = false ∧
      (hide plainEnv shownPopup).timeout_ = ⟨5000, some 5000⟩ ∧
      (mousePressEvent plainEnv shownPopup ⟨1700, 50⟩).isVisible = false ∧
      (mousePressEvent plainEnv shownPopup ⟨1700, 50⟩).timeout_ = ⟨5000, some 5000⟩) ∧
    ((ShowMessage plainEnv shownPopupToggle).isVisible = false ∧
      (ShowMessage plainEnv shownPopupToggle).timeout_ = ⟨5000, none⟩) ∧
    ((mousePressEvent fadingEnv fadedInPopup ⟨1700, 50⟩).fader_ = ⟨Direction.Backward, true⟩ ∧
      (mousePressEvent fadingEnv fadedInPopup ⟨1700, 50⟩).isVisible = true ∧
      pressDismissedPopup.fader_ = ⟨Direction.Backward, false⟩ ∧
      pressDismissedPopup.isVisible = false ∧
      pressDismissedPopup.timeout_ = ⟨5000, some 5000⟩ ∧
      (run pressDismissedPopup [(fadingEnv, Op.ShowMessage)]).isVisible = true ∧
      (run pressDismissedPopup [(fadingEnv, Op.ShowMessage)]).fader_
        = ⟨Direction.Forward, true⟩ ∧
      (run pressDismissedPopup [(fadingEnv, Op.ShowMessage)]).timeout_ = ⟨5000, some 5000⟩ ∧
      (run pressDismissedPopup [(fadingEnv, Op.ShowMessage),
        (fadingEnv, Op.timeoutExpired)]).fader_ = ⟨Direction.Backward, true⟩ ∧
      (run pressDismissedPopup [(fadingEnv, Op.ShowMessage), (fadingEnv, Op.timeoutExpired),
        (fadingEnv, Op.faderCompleted)]).isVisible = false) := by
  decide

/-! ## C10: the opacity a show starts from -/

/-- C10, evaluated on the code: `showEvent` sets the opacity from the fading flag as it was
before `Load`, and starts the fade from the flag as `Load` leaves it. An overlay that loaded
`fading = true` and is shown after the settings were stored with `fading = false` is visible
with opacity 0 and no fade running; a fresh overlay (flag false) shown with `fading = true`
stored has opacity 1 when its fade-in starts. -/
theorem C10_showEvent_opacity_from_stale_flag :
    ((run freshPopup [(fadingEnv, Op.ReloadSettings)]).fading_enabled_ = true ∧
      (showEvent plainEnv (run freshPopup [(fadingEnv, Op.ReloadSettings)])).fading_enabled_
        = false ∧
      (showEvent plainEnv (run freshPopup [(fadingEnv, Op.ReloadSettings)])).windowOpacity
        = 0 ∧
      (showEvent plainEnv (run freshPopup [(fadingEnv, Op.ReloadSettings)])).fader_.running
        = false ∧
      (run freshPopup [(fadingEnv, Op.ReloadSettings), (plainEnv, Op.ShowMessage)]).isVisible
        = true ∧
      (run freshPopup [(fadingEnv, Op.ReloadSettings), (plainEnv, Op.ShowMessage)]).windowOpacity
        = 0) ∧
    (freshPopup.fading_enabled_ = false ∧
      (showEvent fadingEnv freshPopup).fading_enabled_ = true ∧
      (showEvent fadingEnv freshPopup).windowOpacity = 1 ∧
      (showEvent fadingEnv freshPopup).fader_ = ⟨Direction.Forward, true⟩) := by
  decide

end OSDPretty

namespace OSDPretty

/-! ## C11: a dragged position survives persistence -/

/-- C11: for every usable rectangle with non-negative origin, every window size and every
absolute top-left `p` in the range the drag clamp produces (`left() <= p.x <= right() - width`
and `top() <= p.y <= bottom() - height`, Qt's `right()` and `bottom()` being inclusive),
`Reposition` applied to the position `current_pos` encodes from `p`, on the same rectangle and
with the same window size, resolves `p` again, on either build. -/
theorem C11_Reposition_of_current_pos (isWin : Bool) (geometry : QRect) (p : QPoint)
    (width height : Int)
    (hleft : 0 ≤ geometry.left) (htop : 0 ≤ geometry.top)
    (hx1 : geometry.left ≤ p.x) (hx2 : p.x ≤ geometry.right - width)
    (hy1 : geometry.top ≤ p.y) (hy2 : p.y ≤ geometry.bottom - height) :
    RepositionPos isWin geometry (current_pos (some geometry) p width height) width height
      = p := by
  obtain ⟨px, py⟩ := p
  simp only [QRect.left, QRect.top, QRect.right, QRect.bottom] at hleft htop hx1 hx2 hy1 hy2
  have hqx : (current_pos (some geometry) ⟨px, py⟩ width height).x
      = if px ≥ geometry.x2 - width then -1 else px - geometry.x1 := rfl
  have hqy : (current_pos (some geometry) ⟨px, py⟩ width height).y
      = if py ≥ geometry.y2 - height then -1 else py - geometry.y1 := rfl
  have ex : (RepositionPos isWin geometry (current_pos (some geometry) ⟨px, py⟩ width height)
      width height).x = px := by
    rw [RepositionPos_x, hqx]
    by_cases hedge : px ≥ geometry.x2 - width
    · simp only [if_pos hedge]
      cases isWin <;> simp <;> omega
    · have hnn : ¬ (px - geometry.x1 < 0) := by omega
      simp only [if_neg hedge, if_neg hnn]
      cases isWin <;> simp
      omega
  have ey : (RepositionPos isWin geometry (current_pos (some geometry) ⟨px, py⟩ width height)
      width height).y = py := by
    rw [RepositionPos_y, hqy]
    by_cases hedge : py ≥ geometry.y2 - height
    · simp only [if_pos hedge]
      cases isWin <;> simp <;> omega
    · have hnn : ¬ (py - geometry.y1 < 0) := by omega
      simp only [if_neg hedge, if_neg hnn]
      cases isWin <;> simp
      omega
  cases hr : RepositionPos isWin geometry (current_pos (some geometry) ⟨px, py⟩ width height)
    width height with
  | mk rx ry =>
    rw [hr] at ex ey
    simp only at ex ey
    rw [ex, ey]

/-- C11 on the scenario display with a `300x100` window: the far-edge corner `(1619, 979)` is
encoded as `(-1, -1)` and resolved back, on a non-Windows build. -/
theorem C11_Reposition_of_current_pos_witness :
    current_pos (some fullHD) ⟨1619, 979⟩ 300 100 = ⟨-1, -1⟩ ∧
    RepositionPos false fullHD (current_pos (some fullHD) ⟨1619, 979⟩ 300 100) 300 100
      = ⟨1619, 979⟩ :=
  ⟨by decide,
   C11_Reposition_of_current_pos false fullHD ⟨1619, 979⟩ 300 100 (by decide) (by decide)
     (by decide) (by decide) (by decide) (by decide)⟩

end OSDPretty
